import Mathlib

/-!
Verification of the scoped command-synthesis and multi-step issue-creation
engine of a YouTrack MCP server.

The definitions below are a shallow embedding of the TypeScript sources
`src/api/domains/issues-api.ts` and `src/server-core.ts`.  Optional string
parameters are modelled as `Option String`; JavaScript truthiness of a
string-valued expression (`undefined`, `null` and `""` are falsy) is
modelled by `truthy`.  Backend (network) effects are modelled by explicit
oracle structures, and each operation returns the list of backend requests
it issued alongside its response, so that "no network call is made"
becomes a statement about that list.
-/

namespace YoutrackMcp

/-- JavaScript truthiness of an optional string value: `undefined` and the
empty string are falsy, every other string is truthy. -/
def truthy : Option String → Bool
  | none => false
  | some s => !s.isEmpty

/-- Boolean test that `pat` is a prefix of `s` (character lists, exact case). -/
def pfxAux : List Char → List Char → Bool
  | [], _ => true
  | _ :: _, [] => false
  | a :: as, b :: bs => (a == b) && pfxAux as bs

/-- Substring search on character lists (model of JavaScript
`String.prototype.includes`). -/
def containsAux (pat : List Char) : List Char → Bool
  | [] => pfxAux pat []
  | c :: cs => pfxAux pat (c :: cs) || containsAux pat cs

/-- Model of JavaScript `s.includes(pat)` on Lean strings. -/
def strContains (s pat : String) : Bool :=
  containsAux pat.data s.data

/-- Model of JavaScript `s.toLowerCase()` (character-wise lower-casing; the
values compared in the sources are plain ASCII). -/
def lowerStr (s : String) : String :=
  String.mk (s.data.map Char.toLower)

/-! ## Command synthesizer (`createIssue`, issues-api.ts lines 83-114) -/

/-- Parameter bag of `createIssue` (interface `IssueCreateParams`,
issues-api.ts lines 7-20). -/
structure IssueCreateParams where
  summary : String
  description : Option String := none
  type : Option String := none
  priority : Option String := none
  assignee : Option String := none
  dueDate : Option String := none
  tags : Option (List String) := none
  parentId : Option String := none
  devTeam : Option String := none
  businessProc : Option String := none
  sorting : Option Int := none
deriving Repr, DecidableEq

/-- Eligibility test for the `Sorting:` clause (issues-api.ts lines 99-100):
the lower-cased type is one of epic / user story / feature, or the `type`
parameter is falsy (`!params.type`). -/
def sortingEligible (p : IssueCreateParams) : Bool :=
  ["epic", "user story", "feature"].contains (lowerStr (p.type.getD "")) || !(truthy p.type)

/-- Eligibility test for the `Dev_Team:` clause (issues-api.ts line 105):
the lower-cased type is one of task / feature / bug / devops and a team
value was supplied. -/
def devTeamEligible (p : IssueCreateParams) : Bool :=
  ["task", "feature", "bug", "devops"].contains (lowerStr (p.type.getD "")) && truthy p.devTeam

/-- Command synthesis for creation (issues-api.ts lines 83-112): sequential
pushes onto `commandParts`, in source order. -/
def createCommandParts (p : IssueCreateParams) : List String :=
  let parts : List String := []
  let parts := if truthy p.parentId then parts ++ ["subtask of " ++ p.parentId.getD ""] else parts
  let parts := if truthy p.type then parts ++ ["Type: " ++ p.type.getD ""] else parts
  let parts := parts ++ ["Priority: " ++ (if truthy p.priority then p.priority.getD "" else "Normal")]
  let parts := if sortingEligible p then parts ++ ["Sorting: " ++ toString (p.sorting.getD 0)] else parts
  let parts := if devTeamEligible p then parts ++ ["Dev_Team: " ++ p.devTeam.getD ""] else parts
  let parts := if truthy p.assignee then parts ++ ["Assignee: " ++ p.assignee.getD ""] else parts
  parts

/-! ## Command synthesizer for updates (`updateIssue`, issues-api.ts lines 246-269) -/

/-- Parameter bag of `updateIssue` (interface `IssueUpdateParams`,
issues-api.ts lines 22-34).  The estimation is a number of minutes. -/
structure IssueUpdateParams where
  summary : Option String := none
  description : Option String := none
  state : Option String := none
  priority : Option String := none
  assignee : Option String := none
  type : Option String := none
  dueDate : Option String := none
  estimation : Option Nat := none
  subsystem : Option String := none
  tags : Option (List String) := none
deriving Repr, DecidableEq

/-- Conversion of a minute count to the compact YouTrack duration expression
(issues-api.ts lines 262-267): hours and remainder minutes, each token
emitted only when non-zero, defaulting to `0m`. -/
def estimationText (est : Nat) : String :=
  let hours := est / 60
  let minutes := est % 60
  let estParts := (if hours != 0 then [toString hours ++ "h"] else [])
    ++ (if minutes != 0 then [toString minutes ++ "m"] else [])
  if estParts.isEmpty then "0m" else String.intercalate " " estParts

/-- Command synthesis for updates (issues-api.ts lines 252-269): only
fields present in the payload generate commands, in source order. -/
def updateCommandParts (u : IssueUpdateParams) : List String :=
  let parts : List String := []
  let parts := if truthy u.state then parts ++ ["State: " ++ u.state.getD ""] else parts
  let parts := if truthy u.priority then parts ++ ["Priority: " ++ u.priority.getD ""] else parts
  let parts := if truthy u.type then parts ++ ["Type: " ++ u.type.getD ""] else parts
  let parts := if truthy u.assignee then parts ++ ["Assignee: " ++ u.assignee.getD ""] else parts
  let parts := if truthy u.subsystem then parts ++ ["Subsystem: " ++ u.subsystem.getD ""] else parts
  let parts := match u.estimation with
    | some est => parts ++ ["Estimation " ++ estimationText est]
    | none => parts
  parts

/-! ## Response envelope, backend requests and oracles -/

/-- Modelled from the spec: the uniform success/error response envelope
produced by the response formatter (`ResponseFormatter` is consumed by the
sources but its file is not among them; spec section 6 describes the
envelope as a success or error carrying a human-readable message and
structured diagnostic context, modelled here as key/value pairs). -/
inductive MCPResp where
  | ok (message : String) (ctx : List (String × String))
  | err (message : String) (ctx : List (String × String))
deriving Repr, DecidableEq

/-- Backend (network) requests issued by the modelled operations, recorded
so that statements such as "no network call is made" and "the draft is
never submitted" are statements about the request list. -/
inductive Req where
  | projectLookup (projectId : String)
  | draftCreate (internalProjectId : String) (summary : String)
  | commands (command : String) (draftId : String)
  | submit (draftId : String)
  | businessCmd (issueId : String) (command : String)
  | bpFieldLookup (issueId : String)
  | bpFieldSet (issueId : String)
  | queryIssues (query : String)
  | countIssues (query : String)
deriving Repr, DecidableEq

/-- Discriminator for the draft-submission request. -/
def Req.isSubmit : Req → Bool
  | Req.submit _ => true
  | _ => false

/-- The issue returned by the draft-submission POST (id plus optional
human-readable id, issues-api.ts lines 131-133). -/
structure SubmittedIssue where
  id : String
  idReadable : Option String
deriving Repr, DecidableEq

/-- Oracle for the backend calls made by the creation workflow.  Each field
is the outcome of one POST/GET: `Except.error m` models a throw whose
`error.message` is `m`; `draftCreate` yields the optional `data.id` of the
draft; `projLookupId` is the project-detail lookup result (`none` models a
throw or an absent id, both of which fall back to the original id);
`applyFields` is the `/commands` POST on the draft, keyed by the combined
command string; `bpCommand`/`bpLookup` drive the business-process step.
The business-process field write only ever logs, so its outcome is not
represented. -/
structure CreateBackend where
  projLookupId : Option String
  draftCreate : Except String (Option String)
  applyFields : String → Option String
  submit : Except String SubmittedIssue
  bpCommand : Option String
  bpLookup : Except String (Option String)

/-- Internal-id shape test, regex `^\d+-\d+$` (issues-api.ts line 198). -/
def isInternalIdShape (s : String) : Bool :=
  let l := s.data
  let d1 := l.takeWhile Char.isDigit
  let rest := l.dropWhile Char.isDigit
  !d1.isEmpty &&
    (match rest with
     | '-' :: r2 => !r2.isEmpty && r2.all Char.isDigit
     | _ => false)

/-- Project shortName resolution (issues-api.ts lines 197-207): an id that
already has the digits-digits shape is passed through without a lookup;
otherwise one project-detail GET is made, falling back to the original
string when it throws or returns a falsy id. -/
def resolveInternalProjectId (b : CreateBackend) (projectId : String) : String × List Req :=
  if isInternalIdShape projectId then (projectId, [])
  else
    match b.projLookupId with
    | some pid => (if pid.isEmpty then projectId else pid, [Req.projectLookup projectId])
    | none => (projectId, [Req.projectLookup projectId])

/-- Error classification of the creation workflow's outer catch
(issues-api.ts lines 160-190): substring tests on the error message for
not-found, permission, and network failures, with a generic fallback. -/
def classifyCreateError (projectId summary msg : String) : MCPResp :=
  if strContains msg "404" || strContains msg "not found" then
    MCPResp.err ("Project " ++ projectId ++ " not found. Please check the project ID.")
      [("projectId", projectId), ("summary", summary)]
  else if strContains msg "403" || strContains msg "Forbidden" then
    MCPResp.err ("You don\x27t have permission to create issues in project " ++ projectId ++ ".")
      [("projectId", projectId), ("action", "create")]
  else if strContains msg "circular structure" || strContains msg "ECONNREFUSED"
      || strContains msg "ETIMEDOUT" || strContains msg "ENOTFOUND" then
    MCPResp.err "Network error connecting to YouTrack. Check VPN/network connectivity."
      [("projectId", projectId), ("action", "create")]
  else
    MCPResp.err msg [("projectId", projectId), ("summary", summary), ("action", "create")]

/-- Business-process post-submission step (issues-api.ts lines 137-154):
apply the command; on a throw fall back to a custom-field lookup and, when
the field is found, a direct set.  All failures are logged only, so the
step contributes requests but never changes the response. -/
def bpSteps (b : CreateBackend) (idReadable bp : String) : List Req :=
  match b.bpCommand with
  | none => [Req.businessCmd idReadable ("Business_proc " ++ bp)]
  | some _ =>
    match b.bpLookup with
    | Except.error _ =>
        [Req.businessCmd idReadable ("Business_proc " ++ bp), Req.bpFieldLookup idReadable]
    | Except.ok none =>
        [Req.businessCmd idReadable ("Business_proc " ++ bp), Req.bpFieldLookup idReadable]
    | Except.ok (some _) =>
        [Req.businessCmd idReadable ("Business_proc " ++ bp), Req.bpFieldLookup idReadable,
         Req.bpFieldSet idReadable]

/-- The creation workflow (`createIssue`, issues-api.ts lines 62-191):
resolve the internal project id, create a draft, apply the combined
command string, submit the draft, then best-effort business-process
enrichment.  A failing combined command returns the partial-failure error
immediately: the draft is never submitted on that path. -/
def createIssue (b : CreateBackend) (projectId : String) (p : IssueCreateParams) :
    MCPResp × List Req :=
  let r := resolveInternalProjectId b projectId
  let log0 := r.2 ++ [Req.draftCreate r.1 p.summary]
  match b.draftCreate with
  | Except.error msg => (classifyCreateError projectId p.summary msg, log0)
  | Except.ok none =>
      (MCPResp.err "Failed to create draft — no ID returned"
        [("projectId", projectId), ("summary", p.summary)], log0)
  | Except.ok (some draftId) =>
    if draftId.isEmpty then
      (MCPResp.err "Failed to create draft — no ID returned"
        [("projectId", projectId), ("summary", p.summary)], log0)
    else
      let command := String.intercalate " " (createCommandParts p)
      let log1 := log0 ++ [Req.commands command draftId]
      match b.applyFields command with
      | some cmdMsg =>
          (MCPResp.err ("Draft created but failed to apply fields: " ++ cmdMsg)
            [("draftId", draftId), ("command", command), ("projectId", projectId)], log1)
      | none =>
        let log2 := log1 ++ [Req.submit draftId]
        match b.submit with
        | Except.error msg => (classifyCreateError projectId p.summary msg, log2)
        | Except.ok issue =>
          let idReadable := if truthy issue.idReadable then issue.idReadable.getD "" else issue.id
          let log3 := log2 ++
            (if truthy p.businessProc && !idReadable.isEmpty then
              bpSteps b idReadable (p.businessProc.getD "")
             else [])
          (MCPResp.ok ("Issue \"" ++ p.summary ++ "\" created successfully as " ++ idReadable)
            [("id", issue.id), ("idReadable", idReadable)], log3)

/-! ## Scope resolver (`resolveProjectId`, server-core.ts lines 954-982) -/

/-- The missing-scope error message thrown when no project id is
configured and none was provided (server-core.ts lines 974-978). -/
def projectRequiredMsg : String :=
  "Project ID is required. Either:\n1. Set PROJECT_ID in environment/config for single-project mode (recommended)\n2. Provide projectId parameter in each request for multi-project access"

/-- A logged scope-violation warning (server-core.ts lines 962-967). -/
structure ScopeWarning where
  configuredProject : String
  attemptedProject : String
deriving Repr, DecidableEq

/-- Result of the scope resolver: the resolved id or the thrown error,
plus the warnings logged on the way. -/
structure ResolveOutcome where
  result : Except String String
  warnings : List ScopeWarning
deriving Repr

/-- The scope resolver (server-core.ts lines 954-982): a configured
(truthy) project id always wins, logging a warning when a different id was
provided without override; otherwise the provided id is used, and its
absence is an error.  The function is pure: it issues no backend request. -/
def resolveProjectId (cfg providedProjectId : Option String) (allowOverride : Bool) :
    ResolveOutcome :=
  if truthy cfg then
    let c := cfg.getD ""
    let p := providedProjectId.getD ""
    if truthy providedProjectId && !(p == c) && !allowOverride then
      { result := Except.ok c, warnings := [{ configuredProject := c, attemptedProject := p }] }
    else
      { result := Except.ok c, warnings := [] }
  else if truthy providedProjectId then
    { result := Except.ok (providedProjectId.getD ""), warnings := [] }
  else
    { result := Except.error projectRequiredMsg, warnings := [] }

/-! ## Query scoping (`handleQueryIssues`, server-core.ts lines 1244-1270) -/

/-- JavaScript regex whitespace class, restricted to the ASCII whitespace
characters. -/
def jsWS (c : Char) : Bool :=
  (c == ' ') || (c == '\t') || (c == '\n') || (c == '\r') || (c == '\x0b') || (c == '\x0c')

/-- The literal searched for by `query.toLowerCase().includes('project:')`
and by the regex `/project:\s*\S+/i`. -/
def projPat : List Char := "project:".data

/-- Case-insensitive prefix test: `pat` (given lower-case) against the
lower-cased characters of the scanned text. -/
def startsWithCI : List Char → List Char → Bool
  | [], _ => true
  | _ :: _, [] => false
  | a :: as, b :: bs => (a == b.toLower) && startsWithCI as bs

/-- Model of `query.toLowerCase().includes('project:')` (server-core.ts
line 1252): some position of the text starts, case-insensitively, with
`project:`. -/
def containsProjCI : List Char → Bool
  | [] => false
  | c :: cs => startsWithCI projPat (c :: cs) || containsProjCI cs

/-- One attempt of the regex `/project:\s*\S+/i` at the head of `s`:
after the case-insensitive literal, greedily skip whitespace, then require
at least one non-whitespace character and consume the maximal run of them.
Returns the remainder after the match. -/
def matchProjAt (s : List Char) : Option (List Char) :=
  if startsWithCI projPat s then
    let t := (s.drop 8).dropWhile jsWS
    match t with
    | [] => none
    | _ :: _ => some (t.dropWhile (fun c => !(jsWS c)))
  else none

/-- The scan of `String.prototype.replace` with a non-global regex: find
the first position where the pattern matches and splice in the
replacement `project: <pid>`; leave the text unchanged when no position
matches. -/
def replaceProjAux (pid : String) : List Char → List Char
  | [] => []
  | c :: cs =>
    match matchProjAt (c :: cs) with
    | some rest => ("project: " ++ pid).data ++ rest
    | none => c :: replaceProjAux pid cs

/-- Model of `query.replace(/project:\s*\S+/i, "project: " + pid)`
(server-core.ts line 1266). -/
def jsReplaceProjectFirst (pid q : String) : String :=
  String.mk (replaceProjAux pid q.data)

/-- The scoped query computed by `handleQueryIssues` once the resolver has
produced the enforced id (server-core.ts lines 1250-1268): prefix the
project filter when the text has no `project:` occurrence, otherwise
rewrite via the regex replace.  This function is only reached when a
configured project id exists, so the `else if` on the configured id in the
source is always taken in the rewrite branch. -/
def scopedQueryText (pid : String) (q : String) : String :=
  if containsProjCI q.data = false then "project: " ++ pid ++ " " ++ q
  else jsReplaceProjectFirst pid q

/-- The raw query handler (server-core.ts lines 1244-1270): scope
resolution runs first with no provided id; its failure is the response and
no backend request is made.  The list response payload is abstracted to
the scoped query it reports and sends. -/
def handleQueryIssues (cfg : Option String) (query : String) : MCPResp × List Req :=
  match (resolveProjectId cfg none false).result with
  | Except.error e => (MCPResp.err e [], [])
  | Except.ok pid =>
    let sq := scopedQueryText pid query
    (MCPResp.ok "issues listed" [("query", sq)], [Req.queryIssues sq])

/-- The issues-tool `query` action (server-core.ts lines 1177-1180 and
1211-1213).  Modelled from the spec: `ParameterValidator.validateRequired`
(its file is not among the sources) rejects a missing or empty required
argument with a validation failure before any network call.  The dispatch
then forwards only query/fields/limit to `handleQueryIssues`, dropping any
caller-supplied projectId. -/
def issuesActionQuery (cfg _providedProjectId : Option String) (query : Option String) :
    MCPResp × List Req :=
  if !(truthy query) then (MCPResp.err "query is required" [], [])
  else handleQueryIssues cfg (query.getD "")

/-- The count backend call (`getIssueCount`, issues-api.ts lines
1110-1125): one POST of the caller's query to `/issuesGetter/count`. -/
def getIssueCount (count : Except String Nat) (query : String) : MCPResp × List Req :=
  match count with
  | Except.ok n =>
      (MCPResp.ok ("Found " ++ toString n ++ " issues matching query")
        [("count", toString n), ("query", query)], [Req.countIssues query])
  | Except.error m =>
      (MCPResp.err ("Failed to get issue count: " ++ m) [("query", query)],
       [Req.countIssues query])

/-- The issues-tool `count` action (server-core.ts lines 1177-1181 and
1216-1219): after the required-query validation the handler calls
`getIssueCount` with the caller's query as-is.  The configured project id
is accepted as an argument here only to show it is never consulted:
the source neither calls `resolveProjectId` nor rewrites the query on
this path, despite the adjacent comment claiming scoping is applied. -/
def handleIssuesCount (count : Except String Nat) (_cfg : Option String)
    (query : Option String) : MCPResp × List Req :=
  if !(truthy query) then (MCPResp.err "query is required" [], [])
  else getIssueCount count (query.getD "")

/-- The issues-tool `create` action (server-core.ts lines 1144-1148 and
1196-1199): scope resolution (and the required-summary validation,
modelled from the spec as the other validators) happens before the
creation workflow runs, so a resolution failure issues no request. -/
def handleIssuesCreate (b : CreateBackend) (cfg providedProjectId : Option String)
    (p : IssueCreateParams) : MCPResp × List Req :=
  match (resolveProjectId cfg providedProjectId false).result with
  | Except.error e => (MCPResp.err e [], [])
  | Except.ok pid =>
    if p.summary.isEmpty then (MCPResp.err "summary is required" [], [])
    else createIssue b pid p

/-- Property names of the raw `query` tool's input schema (server-core.ts
lines 159-180): only `query`, `fields` and `limit` are declared. -/
def queryToolProperties : List String := ["query", "fields", "limit"]

/-- Required property names of the raw `query` tool's input schema
(server-core.ts line 180). -/
def queryToolRequired : List String := ["query"]

/-! ## Update workflow (`updateIssue`, issues-api.ts lines 246-316) -/

/-- Oracle for the backend calls made by `updateIssue`: per-command
outcome of the `/commands` POST (`some m` models a throw with message
`m`), and the outcomes of the basic-field POST and the tag POST. -/
structure UpdateBackend where
  applyCmd : String → Option String
  basicFail : Option String
  tagsFail : Option String

/-- Observable outcome of the update workflow: the commands attempted (in
order), the `appliedCommands` and `commandErrors` metadata of the
response, whether the basic-field and tag writes were attempted, and the
response envelope. -/
structure UpdateOutcome where
  attempted : List String
  appliedCommands : Nat
  commandErrors : List String
  basicWriteAttempted : Bool
  tagsWriteAttempted : Bool
  resp : MCPResp
deriving Repr, DecidableEq

/-- The update workflow (issues-api.ts lines 246-316): every synthesized
command is applied in its own call inside a per-iteration try/catch, so
all of them are attempted regardless of earlier failures and each failure
contributes `"<command>: <message>"` in order; the basic-field write and
the tag write run afterwards in their own try/catch blocks, appending
`Basic fields:` / `Tags:` entries on failure; the response is always the
formatted-update success envelope, with the partial-errors suffix when any
error was collected.  The final re-fetch of the issue only affects the
reported payload and is not represented. -/
def updateIssue (b : UpdateBackend) (issueId : String) (u : IssueUpdateParams) :
    UpdateOutcome :=
  let parts := updateCommandParts u
  let cmdErrs := parts.filterMap (fun cmd =>
    match b.applyCmd cmd with
    | some msg => some (cmd ++ ": " ++ msg)
    | none => none)
  let basicAttempt := truthy u.summary || truthy u.description
  let errs1 := cmdErrs ++
    (match basicAttempt, b.basicFail with
     | true, some m => ["Basic fields: " ++ m]
     | _, _ => [])
  let tagsAttempt := match u.tags with
    | some ts => !ts.isEmpty
    | none => false
  let errs2 := errs1 ++
    (match tagsAttempt, b.tagsFail with
     | true, some m => ["Tags: " ++ m]
     | _, _ => [])
  { attempted := parts
    appliedCommands := parts.length
    commandErrors := errs2
    basicWriteAttempted := basicAttempt
    tagsWriteAttempted := tagsAttempt
    resp := MCPResp.ok
      ("Issue " ++ issueId ++ " updated"
        ++ (if errs2.isEmpty then " successfully" else " with partial errors"))
      [("appliedCommands", toString parts.length),
       ("commandErrorsCount", toString errs2.length)] }

/-! ## Concrete instances used by counterexamples, witnesses and scenarios -/

/-- A backend on which draft creation succeeds and the combined field
command fails. -/
def cexCreateBackend : CreateBackend where
  projLookupId := none
  draftCreate := Except.ok (some "77-100")
  applyFields := fun _ => some "bad value"
  submit := Except.ok { id := "3-1", idReadable := some "SC-1" }
  bpCommand := none
  bpLookup := Except.ok none

/-- Creation parameters of the concrete run. -/
def cexCreateParams : IssueCreateParams :=
  { summary := "X", type := some "Task", devTeam := some "Backend" }

/-- An update backend on which exactly the second synthesized command
fails. -/
def exUpdateBackend : UpdateBackend where
  applyCmd := fun c => if c == "Priority: Critical2" then some "bad value" else none
  basicFail := none
  tagsFail := none

/-- An update payload synthesizing three commands, the second of which is
the invalid one. -/
def exUpdateParams : IssueUpdateParams :=
  { state := some "Open", priority := some "Critical2", assignee := some "alice" }

/-- Occurrence-free check for a leading segment: no position inside the
segment starts a case-insensitive `project:` occurrence in the full text
(the tail sees the rest of the text). -/
def noProjOccPre : List Char → List Char → Bool
  | [], _ => true
  | c :: cs, rest => !(startsWithCI projPat (c :: (cs ++ rest))) && noProjOccPre cs rest

/-- Check that every case-insensitive `project:` occurrence in the text is
malformed for the regex: only whitespace (or nothing) follows the literal,
so `\S+` cannot match. -/
def projOccAllMalformed : List Char → Bool
  | [] => true
  | c :: cs =>
      (!(startsWithCI projPat (c :: cs)) || (((c :: cs).drop 8).dropWhile jsWS).isEmpty)
        && projOccAllMalformed cs

/-! ## Helper lemmas about the synthesized parts -/

/-- A clause test: the command text begins with the literal `Sorting:`. -/
def isSortingClause (c : String) : Bool :=
  pfxAux "Sorting:".data c.data

/-- A clause test: the command text begins with the literal `Dev_Team:`. -/
def isDevTeamClause (c : String) : Bool :=
  pfxAux "Dev_Team:".data c.data

theorem pfxAux_append_head_ne (p0 c : Char) (ps rest tail : List Char)
    (hc : (p0 == c) = false) : pfxAux (p0 :: ps) ((c :: rest) ++ tail) = false := by
  simp [pfxAux, hc]

theorem data_append_cons (lit x : String) (c : Char) (rest : List Char)
    (h : lit.data = c :: rest) : (lit ++ x).data = (c :: rest) ++ x.data := by
  rw [String.data_append, h]

theorem pfxAux_self_append (p t : List Char) : pfxAux p (p ++ t) = true := by
  induction p with
  | nil => rfl
  | cons a as ih => simp [pfxAux, ih]

theorem pfx_lit_append_false (pat lit x : String) (p0 c : Char) (ps rest : List Char)
    (hp : pat.data = p0 :: ps) (hl : lit.data = c :: rest) (hc : (p0 == c) = false) :
    pfxAux pat.data (lit ++ x).data = false := by
  rw [String.data_append, hp, hl]
  exact pfxAux_append_head_ne p0 c ps rest x.data hc

theorem notSorting_subtask (x : String) : isSortingClause ("subtask of " ++ x) = false :=
  pfx_lit_append_false "Sorting:" "subtask of " x 'S' 's' _ _ rfl rfl (by decide)

theorem notSorting_type (x : String) : isSortingClause ("Type: " ++ x) = false :=
  pfx_lit_append_false "Sorting:" "Type: " x 'S' 'T' _ _ rfl rfl (by decide)

theorem notSorting_priority (x : String) : isSortingClause ("Priority: " ++ x) = false :=
  pfx_lit_append_false "Sorting:" "Priority: " x 'S' 'P' _ _ rfl rfl (by decide)

theorem notSorting_devteam (x : String) : isSortingClause ("Dev_Team: " ++ x) = false :=
  pfx_lit_append_false "Sorting:" "Dev_Team: " x 'S' 'D' _ _ rfl rfl (by decide)

theorem notSorting_assignee (x : String) : isSortingClause ("Assignee: " ++ x) = false :=
  pfx_lit_append_false "Sorting:" "Assignee: " x 'S' 'A' _ _ rfl rfl (by decide)

theorem isSorting_sorting (x : String) : isSortingClause ("Sorting: " ++ x) = true := by
  show pfxAux "Sorting:".data ("Sorting: " ++ x).data = true
  rw [String.data_append]
  have h : "Sorting: ".data = "Sorting:".data ++ [' '] := rfl
  rw [h, List.append_assoc]
  exact pfxAux_self_append _ _

theorem notDevTeam_subtask (x : String) : isDevTeamClause ("subtask of " ++ x) = false :=
  pfx_lit_append_false "Dev_Team:" "subtask of " x 'D' 's' _ _ rfl rfl (by decide)

theorem notDevTeam_type (x : String) : isDevTeamClause ("Type: " ++ x) = false :=
  pfx_lit_append_false "Dev_Team:" "Type: " x 'D' 'T' _ _ rfl rfl (by decide)

theorem notDevTeam_priority (x : String) : isDevTeamClause ("Priority: " ++ x) = false :=
  pfx_lit_append_false "Dev_Team:" "Priority: " x 'D' 'P' _ _ rfl rfl (by decide)

theorem notDevTeam_sorting (x : String) : isDevTeamClause ("Sorting: " ++ x) = false :=
  pfx_lit_append_false "Dev_Team:" "Sorting: " x 'D' 'S' _ _ rfl rfl (by decide)

theorem notDevTeam_assignee (x : String) : isDevTeamClause ("Assignee: " ++ x) = false :=
  pfx_lit_append_false "Dev_Team:" "Assignee: " x 'D' 'A' _ _ rfl rfl (by decide)

theorem isDevTeam_devteam (x : String) : isDevTeamClause ("Dev_Team: " ++ x) = true := by
  show pfxAux "Dev_Team:".data ("Dev_Team: " ++ x).data = true
  rw [String.data_append]
  have h : "Dev_Team: ".data = "Dev_Team:".data ++ [' '] := rfl
  rw [h, List.append_assoc]
  exact pfxAux_self_append _ _

theorem createCommandParts_eq (p : IssueCreateParams) :
    createCommandParts p =
      (if truthy p.parentId then ["subtask of " ++ p.parentId.getD ""] else [])
      ++ (if truthy p.type then ["Type: " ++ p.type.getD ""] else [])
      ++ ["Priority: " ++ (if truthy p.priority then p.priority.getD "" else "Normal")]
      ++ (if sortingEligible p then ["Sorting: " ++ toString (p.sorting.getD 0)] else [])
      ++ (if devTeamEligible p then ["Dev_Team: " ++ p.devTeam.getD ""] else [])
      ++ (if truthy p.assignee then ["Assignee: " ++ p.assignee.getD ""] else []) := by
  unfold createCommandParts
  cases truthy p.parentId <;> cases truthy p.type <;>
    cases sortingEligible p <;> cases devTeamEligible p <;> cases truthy p.assignee <;> simp

/-! ## Claim theorems on the synthesizer (C6, C7, C8, C9) -/

/-- C6: the synthesized creation command sequence contains a clause starting
with `Sorting:` if and only if the lower-cased type is one of
epic / user story / feature or no (truthy) type was supplied
(`sortingEligible`); when present it occurs exactly once and carries the
supplied sorting value or `0`; it never appears otherwise (in particular
never for task / bug / devops). -/
theorem sorting_clause_iff (p : IssueCreateParams) :
    ((createCommandParts p).countP (fun c => isSortingClause c)
        = if sortingEligible p then 1 else 0)
    ∧ (sortingEligible p = true →
        ("Sorting: " ++ toString (p.sorting.getD 0)) ∈ createCommandParts p)
    ∧ (sortingEligible p = false →
        ∀ c ∈ createCommandParts p, isSortingClause c = false) := by
  have hcount : (createCommandParts p).countP (fun c => isSortingClause c)
      = if sortingEligible p then 1 else 0 := by
    rw [createCommandParts_eq]
    cases h1 : truthy p.parentId <;> cases h2 : truthy p.type <;>
      cases h3 : sortingEligible p <;> cases h4 : devTeamEligible p <;>
      cases h5 : truthy p.assignee <;>
      simp [List.countP_append, List.countP_singleton, isSorting_sorting,
        notSorting_subtask, notSorting_type, notSorting_priority,
        notSorting_devteam, notSorting_assignee]
  refine ⟨hcount, ?_, ?_⟩
  · intro hse
    rw [createCommandParts_eq]
    simp [hse]
  · intro hse c hc
    rw [hse] at hcount
    simp only [if_neg Bool.false_ne_true] at hcount
    have h := List.countP_eq_zero.mp hcount c hc
    simpa using h

/-- C7: the synthesized creation command sequence contains a clause starting
with `Dev_Team:` if and only if the lower-cased type is one of
task / feature / bug / devops and a (truthy) team value was supplied
(`devTeamEligible`); it never appears otherwise, in particular never when
the type is absent, epic or user story, or when no team was supplied. -/
theorem devteam_clause_iff (p : IssueCreateParams) :
    ((createCommandParts p).countP (fun c => isDevTeamClause c)
        = if devTeamEligible p then 1 else 0)
    ∧ (devTeamEligible p = true →
        ("Dev_Team: " ++ p.devTeam.getD "") ∈ createCommandParts p)
    ∧ (devTeamEligible p = false →
        ∀ c ∈ createCommandParts p, isDevTeamClause c = false) := by
  have hcount : (createCommandParts p).countP (fun c => isDevTeamClause c)
      = if devTeamEligible p then 1 else 0 := by
    rw [createCommandParts_eq]
    cases h1 : truthy p.parentId <;> cases h2 : truthy p.type <;>
      cases h3 : sortingEligible p <;> cases h4 : devTeamEligible p <;>
      cases h5 : truthy p.assignee <;>
      simp [List.countP_append, List.countP_singleton, isDevTeam_devteam,
        notDevTeam_subtask, notDevTeam_type, notDevTeam_priority,
        notDevTeam_sorting, notDevTeam_assignee]
  refine ⟨hcount, ?_, ?_⟩
  · intro hdv
    rw [createCommandParts_eq]
    simp [hdv]
  · intro hdv c hc
    rw [hdv] at hcount
    simp only [if_neg Bool.false_ne_true] at hcount
    have h := List.countP_eq_zero.mp hcount c hc
    simpa using h

/-- C6 witness: evaluated for an epic with sorting 5 (eligible, one clause
with the supplied value) and for a task (not eligible, no clause). -/
theorem sorting_clause_iff_witness :
    ("Sorting: 5" ∈ createCommandParts
      { summary := "E", type := some "Epic", sorting := some 5 })
    ∧ ((createCommandParts { summary := "T", type := some "Task" }).countP
        (fun c => isSortingClause c) = 0) := by
  constructor
  · have h := (sorting_clause_iff
      { summary := "E", type := some "Epic", sorting := some 5 }).2.1 (by decide)
    simpa using h
  · rw [(sorting_clause_iff { summary := "T", type := some "Task" }).1]
    decide

/-- C7 witness: evaluated for a task with a team (one `Dev_Team:` clause)
and for an epic with a team (no clause). -/
theorem devteam_clause_iff_witness :
    ("Dev_Team: Backend" ∈ createCommandParts
      { summary := "T", type := some "Task", devTeam := some "Backend" })
    ∧ ((createCommandParts
        { summary := "E", type := some "Epic", devTeam := some "Backend" }).countP
        (fun c => isDevTeamClause c) = 0) := by
  constructor
  · have h := (devteam_clause_iff
      { summary := "T", type := some "Task", devTeam := some "Backend" }).2.1 (by decide)
    simpa using h
  · rw [(devteam_clause_iff
      { summary := "E", type := some "Epic", devTeam := some "Backend" }).1]
    decide

/-- C8: the estimation command is computed from hours = minutes / 60 and
remainder = minutes % 60, emitting the `h` token only when hours > 0 and
the `m` token only when the remainder > 0, with `0m` when both vanish;
90 → `Estimation 1h 30m`, 45 → `Estimation 45m`, 0 → `Estimation 0m`. -/
theorem estimation_conversion (est : Nat) :
    (updateCommandParts { estimation := some est } = ["Estimation " ++ estimationText est])
    ∧ estimationText est =
        (if est / 60 = 0 ∧ est % 60 = 0 then "0m"
         else if est / 60 = 0 then toString (est % 60) ++ "m"
         else if est % 60 = 0 then toString (est / 60) ++ "h"
         else toString (est / 60) ++ "h " ++ toString (est % 60) ++ "m")
    ∧ updateCommandParts { estimation := some 90 } = ["Estimation 1h 30m"]
    ∧ updateCommandParts { estimation := some 45 } = ["Estimation 45m"]
    ∧ updateCommandParts { estimation := some 0 } = ["Estimation 0m"] := by
  refine ⟨by simp [updateCommandParts, truthy], ?_, by decide, by decide, by decide⟩
  by_cases h1 : est / 60 = 0 <;> by_cases h2 : est % 60 = 0 <;>
    simp [estimationText, h1, h2, String.intercalate, String.intercalate.go]
  rw [String.append_assoc (toString (est / 60)) "h" " "]
  rw [show ("h" ++ " " : String) = "h " from rfl]
  rw [← String.append_assoc]

/-- C9: command synthesis for creation is a total Lean function of the
parameter record (hence deterministic), its output decomposes into the
fixed segment order parent link, `Type`, `Priority`, `Sorting`, `Dev_Team`,
`Assignee`, and the `Priority` clause is always present, defaulting to
`Normal` when no priority was supplied. -/
theorem create_synthesis_fixed_order (p : IssueCreateParams) :
    (createCommandParts p =
      (if truthy p.parentId then ["subtask of " ++ p.parentId.getD ""] else [])
      ++ (if truthy p.type then ["Type: " ++ p.type.getD ""] else [])
      ++ ["Priority: " ++ (if truthy p.priority then p.priority.getD "" else "Normal")]
      ++ (if sortingEligible p then ["Sorting: " ++ toString (p.sorting.getD 0)] else [])
      ++ (if devTeamEligible p then ["Dev_Team: " ++ p.devTeam.getD ""] else [])
      ++ (if truthy p.assignee then ["Assignee: " ++ p.assignee.getD ""] else []))
    ∧ ("Priority: " ++ (if truthy p.priority then p.priority.getD "" else "Normal"))
        ∈ createCommandParts p := by
  refine ⟨createCommandParts_eq p, ?_⟩
  rw [createCommandParts_eq]
  simp

/-! ## Creation workflow: field-application failure (C1) -/

theorem resolveInternal_no_submit (b : CreateBackend) (pid : String) :
    (resolveInternalProjectId b pid).2.all (fun r => !r.isSubmit) = true := by
  unfold resolveInternalProjectId
  cases h : isInternalIdShape pid <;> cases hb : b.projLookupId <;> simp [Req.isSubmit]

/-- C1 counterexample: on a concrete run where the draft is created
(id `77-100`) and the combined field command fails with `bad value`, the
workflow returns an error envelope and the request log ends at the
`/commands` POST: the spec's statement that the workflow "does not abort"
and "still proceeds to submit the draft as a real issue" is false, since
no submission request is ever issued and no issue identifiers are
returned. -/
theorem creation_cmd_failure_counterexample :
    createIssue cexCreateBackend "0-1" cexCreateParams =
      (MCPResp.err "Draft created but failed to apply fields: bad value"
        [("draftId", "77-100"),
         ("command", "Type: Task Priority: Normal Dev_Team: Backend"),
         ("projectId", "0-1")],
       [Req.draftCreate "0-1" "X",
        Req.commands "Type: Task Priority: Normal Dev_Team: Backend" "77-100"])
    ∧ (createIssue cexCreateBackend "0-1" cexCreateParams).2.all
        (fun r => !r.isSubmit) = true := by
  exact ⟨by decide, by decide⟩

/-- C1 (amended): whenever draft creation succeeds with a truthy id and
the combined field-application command fails, the workflow aborts before
submission: it returns the partial-failure error envelope carrying the
draft id, the combined command text and the failure message, and the
request log consists of the project resolution, the draft POST and the
`/commands` POST only — in particular it contains no submission request. -/
theorem creation_cmd_failure_amended (b : CreateBackend) (projectId : String)
    (p : IssueCreateParams) (draftId cmdMsg : String)
    (hd : b.draftCreate = Except.ok (some draftId))
    (hne : draftId.isEmpty = false)
    (hc : b.applyFields (String.intercalate " " (createCommandParts p)) = some cmdMsg) :
    createIssue b projectId p =
      (MCPResp.err ("Draft created but failed to apply fields: " ++ cmdMsg)
        [("draftId", draftId),
         ("command", String.intercalate " " (createCommandParts p)),
         ("projectId", projectId)],
       (resolveInternalProjectId b projectId).2
         ++ [Req.draftCreate (resolveInternalProjectId b projectId).1 p.summary,
             Req.commands (String.intercalate " " (createCommandParts p)) draftId])
    ∧ (createIssue b projectId p).2.all (fun r => !r.isSubmit) = true := by
  have h1 : createIssue b projectId p =
      (MCPResp.err ("Draft created but failed to apply fields: " ++ cmdMsg)
        [("draftId", draftId),
         ("command", String.intercalate " " (createCommandParts p)),
         ("projectId", projectId)],
       (resolveInternalProjectId b projectId).2
         ++ [Req.draftCreate (resolveInternalProjectId b projectId).1 p.summary,
             Req.commands (String.intercalate " " (createCommandParts p)) draftId]) := by
    unfold createIssue
    rw [hd]
    simp [hne, hc]
  refine ⟨h1, ?_⟩
  rw [h1]
  show ((resolveInternalProjectId b projectId).2 ++ _).all _ = true
  rw [List.all_append, resolveInternal_no_submit]
  simp [Req.isSubmit]

/-- C1 witness: the amended statement instantiated on the concrete backend
run. -/
theorem creation_cmd_failure_amended_witness :
    (createIssue cexCreateBackend "0-1" cexCreateParams).1 =
      MCPResp.err ("Draft created but failed to apply fields: " ++ "bad value")
        [("draftId", "77-100"),
         ("command", String.intercalate " " (createCommandParts cexCreateParams)),
         ("projectId", "0-1")]
    ∧ (createIssue cexCreateBackend "0-1" cexCreateParams).2.all
        (fun r => !r.isSubmit) = true := by
  have h := creation_cmd_failure_amended cexCreateBackend "0-1" cexCreateParams
    "77-100" "bad value" rfl (by decide) rfl
  exact ⟨by rw [h.1], h.2⟩

/-! ## Count action is not scoped (C2) -/

/-- C2 (code bug): with an enforced project id `TEAM` configured, the
issues-tool count action sends the caller's query `project: OTHER` to the
backend verbatim — `resolveProjectId` is never consulted on this path and
the query is not rewritten, contradicting the adjacent source comment that
claims project scoping is applied; the result is moreover independent of
the configured id altogether. -/
theorem count_action_ignores_scope :
    (handleIssuesCount (Except.ok 5) (some "TEAM") (some "project: OTHER")).2
      = [Req.countIssues "project: OTHER"]
    ∧ (∀ (count : Except String Nat) (cfg cfg' : Option String),
        handleIssuesCount count cfg (some "project: OTHER")
          = handleIssuesCount count cfg' (some "project: OTHER")) := by
  exact ⟨rfl, fun count cfg cfg' => rfl⟩

/-! ## Scope resolver contract (C3) -/

/-- C3: the scope resolver's full contract.  With a configured (truthy)
enforced id the resolver always returns it, logging a scope-violation
warning when a different id was provided without override; with no
enforced id it returns the provided id, and when that is absent it fails
with the missing-scope error — and on that path the create and query
handlers return the error without issuing a single backend request. -/
theorem resolveProjectId_contract (cfg provided : Option String) (ov : Bool) :
    (truthy cfg = true →
      (resolveProjectId cfg provided ov).result = Except.ok (cfg.getD "")
      ∧ ((truthy provided = true ∧ provided.getD "" ≠ cfg.getD "" ∧ ov = false) →
          (resolveProjectId cfg provided ov).warnings =
            [{ configuredProject := cfg.getD "", attemptedProject := provided.getD "" }]))
    ∧ (truthy cfg = false → truthy provided = true →
        (resolveProjectId cfg provided ov).result = Except.ok (provided.getD "")
        ∧ (resolveProjectId cfg provided ov).warnings = [])
    ∧ (truthy cfg = false → truthy provided = false →
        (resolveProjectId cfg provided ov).result = Except.error projectRequiredMsg
        ∧ (∀ (b : CreateBackend) (p : IssueCreateParams),
            handleIssuesCreate b cfg provided p = (MCPResp.err projectRequiredMsg [], []))
        ∧ (∀ q : String,
            handleQueryIssues cfg q = (MCPResp.err projectRequiredMsg [], []))) := by
  refine ⟨?_, ?_, ?_⟩
  · intro hc
    constructor
    · unfold resolveProjectId
      rw [hc]
      by_cases h : truthy provided && !(provided.getD "" == cfg.getD "") && !ov <;> simp [h]
    · rintro ⟨hp, hne, hov⟩
      have hbe : (provided.getD "" == cfg.getD "") = false := by
        simp [hne]
      unfold resolveProjectId
      rw [hc]
      simp [hp, hbe, hov]
  · intro hc hp
    unfold resolveProjectId
    rw [hc, hp]
    simp
  · intro hc hp
    have hres : (resolveProjectId cfg provided ov).result = Except.error projectRequiredMsg := by
      unfold resolveProjectId
      rw [hc, hp]
      simp
    have hres0 : (resolveProjectId cfg provided false).result = Except.error projectRequiredMsg := by
      unfold resolveProjectId
      rw [hc, hp]
      simp
    have hresq : (resolveProjectId cfg none false).result = Except.error projectRequiredMsg := by
      unfold resolveProjectId
      rw [hc]
      simp [truthy]
    refine ⟨hres, ?_, ?_⟩
    · intro b p
      unfold handleIssuesCreate
      rw [hres0]
    · intro q
      unfold handleQueryIssues
      rw [hresq]

/-- C3 witness: enforced id `TEAM` with provided id `OTHER` resolves to
`TEAM` and logs the scope-violation warning; with nothing configured and
nothing provided, resolution is the missing-scope error. -/
theorem resolveProjectId_contract_witness :
    (resolveProjectId (some "TEAM") (some "OTHER") false).result = Except.ok "TEAM"
    ∧ (resolveProjectId (some "TEAM") (some "OTHER") false).warnings =
        [{ configuredProject := "TEAM", attemptedProject := "OTHER" }]
    ∧ (resolveProjectId none none false).result = Except.error projectRequiredMsg := by
  have h1 := resolveProjectId_contract (some "TEAM") (some "OTHER") false
  have h2 := resolveProjectId_contract none none false
  refine ⟨(h1.1 (by decide)).1, (h1.1 (by decide)).2 ⟨by decide, by decide, rfl⟩,
    ((h2.2.2 (by decide)) (by decide)).1⟩

/-! ## Update isolation (C5) -/

/-- C5: `updateIssue` attempts every synthesized command regardless of
earlier failures (the attempted list is the full synthesized list and does
not depend on the backend), reports `appliedCommands` as the number of
commands attempted, collects `commandErrors` as the ordered
`"<command>: <message>"` entries of the failing commands followed by the
basic-field and tag entries, attempts the basic-field and tag writes
independently of command failures, and always returns a success envelope.
On the concrete three-command run whose second command is invalid it
reports 1 failure out of 3 attempted. -/
theorem updateIssue_isolation (b : UpdateBackend) (issueId : String) (u : IssueUpdateParams) :
    ((updateIssue b issueId u).attempted = updateCommandParts u)
    ∧ ((updateIssue b issueId u).appliedCommands = (updateCommandParts u).length)
    ∧ ((updateIssue b issueId u).commandErrors =
        ((updateCommandParts u).filterMap fun cmd =>
          match b.applyCmd cmd with
          | some msg => some (cmd ++ ": " ++ msg)
          | none => none)
        ++ (match truthy u.summary || truthy u.description, b.basicFail with
            | true, some m => ["Basic fields: " ++ m]
            | _, _ => [])
        ++ (match (match u.tags with | some ts => !ts.isEmpty | none => false), b.tagsFail with
            | true, some m => ["Tags: " ++ m]
            | _, _ => []))
    ∧ (∀ b' : UpdateBackend,
        (updateIssue b' issueId u).attempted = (updateIssue b issueId u).attempted
        ∧ (updateIssue b' issueId u).basicWriteAttempted
            = (updateIssue b issueId u).basicWriteAttempted
        ∧ (updateIssue b' issueId u).tagsWriteAttempted
            = (updateIssue b issueId u).tagsWriteAttempted)
    ∧ (∃ m ctx, (updateIssue b issueId u).resp = MCPResp.ok m ctx)
    ∧ (updateIssue exUpdateBackend "SC-1" exUpdateParams).attempted =
        ["State: Open", "Priority: Critical2", "Assignee: alice"]
    ∧ (updateIssue exUpdateBackend "SC-1" exUpdateParams).appliedCommands = 3
    ∧ (updateIssue exUpdateBackend "SC-1" exUpdateParams).commandErrors =
        ["Priority: Critical2: bad value"]
    ∧ (updateIssue exUpdateBackend "SC-1" exUpdateParams).resp =
        MCPResp.ok "Issue SC-1 updated with partial errors"
          [("appliedCommands", "3"), ("commandErrorsCount", "1")] := by
  refine ⟨rfl, rfl, rfl, fun b' => ⟨rfl, rfl, rfl⟩, ⟨_, _, rfl⟩,
    by decide, by decide, by decide, by decide⟩

/-! ## Raw query tool requires a configured project (C10) -/

/-- C10: with no enforced project id configured, every call of the raw
query tool fails with the missing-project error and issues no backend
request, whatever the query text (in particular also when it already
contains a project filter clause); the issues-tool `query` action, which
routes through the same handler and drops any caller-supplied projectId,
fails the same way for every non-empty query; and the raw query tool's
input schema declares no `projectId` property, so no input can satisfy the
requirement in multi-project mode. -/
theorem query_requires_configured_project :
    (∀ q : String, handleQueryIssues none q = (MCPResp.err projectRequiredMsg [], []))
    ∧ (∀ (pr : Option String) (q : String), q.isEmpty = false →
        issuesActionQuery none pr (some q) = (MCPResp.err projectRequiredMsg [], []))
    ∧ (¬ ("projectId" ∈ queryToolProperties))
    ∧ queryToolRequired = ["query"] := by
  refine ⟨fun q => rfl, ?_, by decide, rfl⟩
  intro pr q hq
  unfold issuesActionQuery
  simp [truthy, hq]
  rfl

/-- C10 witness: a query that itself names a project still fails with the
missing-project error and issues no request. -/
theorem query_requires_configured_project_witness :
    issuesActionQuery none (some "OTHER") (some "project: OTHER state: Open")
      = (MCPResp.err projectRequiredMsg [], []) :=
  query_requires_configured_project.2.1 (some "OTHER") "project: OTHER state: Open" (by decide)

/-! ## Query-text scoping (C4) -/

theorem matchProjAt_nil : matchProjAt [] = none := rfl

theorem matchProjAt_none_of_not_starts (s : List Char)
    (h : startsWithCI projPat s = false) : matchProjAt s = none := by
  unfold matchProjAt
  simp [h]

theorem replaceProjAux_cons_nomatch (pid : String) (c : Char) (cs : List Char)
    (h : matchProjAt (c :: cs) = none) :
    replaceProjAux pid (c :: cs) = c :: replaceProjAux pid cs := by
  conv_lhs => rw [replaceProjAux]
  rw [h]

theorem replaceProjAux_of_match (pid : String) (s rest : List Char)
    (h : matchProjAt s = some rest) :
    replaceProjAux pid s = ("project: " ++ pid).data ++ rest := by
  cases s with
  | nil =>
    rw [matchProjAt_nil] at h
    exact Option.noConfusion h
  | cons c cs =>
    unfold replaceProjAux
    rw [h]

theorem replaceProjAux_pre (pid : String) (a rest : List Char)
    (h : noProjOccPre a rest = true) :
    replaceProjAux pid (a ++ rest) = a ++ replaceProjAux pid rest := by
  induction a with
  | nil => simp
  | cons c cs ih =>
    have h' : (!(startsWithCI projPat (c :: (cs ++ rest))) && noProjOccPre cs rest) = true := h
    rw [Bool.and_eq_true] at h'
    have h1 : startsWithCI projPat (c :: (cs ++ rest)) = false := by
      simpa using h'.1
    have hm : matchProjAt (c :: (cs ++ rest)) = none := matchProjAt_none_of_not_starts _ h1
    rw [List.cons_append, replaceProjAux_cons_nomatch pid c (cs ++ rest) hm, ih h'.2,
      List.cons_append]

theorem dropWhile_append_all {α : Type} (p : α → Bool) (w rest : List α)
    (hw : w.all p = true) : (w ++ rest).dropWhile p = rest.dropWhile p := by
  induction w with
  | nil => rfl
  | cons a as ih =>
    rw [List.all_cons, Bool.and_eq_true] at hw
    rw [List.cons_append]
    simp [List.dropWhile, hw.1, ih hw.2]

theorem matchProjAt_clause (pr w t b : List Char)
    (hs : startsWithCI projPat (pr ++ (w ++ (t ++ b))) = true)
    (hlen : pr.length = 8)
    (hw : w.all jsWS = true)
    (ht : t ≠ [])
    (htn : t.all (fun c => !(jsWS c)) = true)
    (hb : b = [] ∨ ∃ c cs, b = c :: cs ∧ jsWS c = true) :
    matchProjAt (pr ++ (w ++ (t ++ b))) = some b := by
  obtain ⟨c, ts, rfl⟩ : ∃ c ts, t = c :: ts := by
    cases t with
    | nil => exact absurd rfl ht
    | cons c ts => exact ⟨c, ts, rfl⟩
  rw [List.all_cons, Bool.and_eq_true] at htn
  have hjc : jsWS c = false := by
    simpa using htn.1
  have hdrop : (pr ++ (w ++ ((c :: ts) ++ b))).drop 8 = w ++ ((c :: ts) ++ b) := by
    rw [← hlen]
    exact List.drop_left pr (w ++ ((c :: ts) ++ b))
  have h1 : (w ++ ((c :: ts) ++ b)).dropWhile jsWS = c :: (ts ++ b) := by
    rw [dropWhile_append_all jsWS w _ hw, List.cons_append]
    simp [List.dropWhile, hjc]
  have h2 : (c :: (ts ++ b)).dropWhile (fun x => !(jsWS x)) = b := by
    rw [← List.cons_append, dropWhile_append_all _ _ _ (by rw [List.all_cons, Bool.and_eq_true]; exact ⟨htn.1, htn.2⟩)]
    rcases hb with rfl | ⟨c', cs, rfl, hcw⟩
    · rfl
    · simp [List.dropWhile, hcw]
  unfold matchProjAt
  simp only [hs, if_true]
  rw [hdrop, h1, h2]

theorem containsProjCI_append (a rest : List Char)
    (h : startsWithCI projPat rest = true) : containsProjCI (a ++ rest) = true := by
  induction a with
  | nil =>
    cases rest with
    | nil =>
      have hf : startsWithCI projPat ([] : List Char) = false := rfl
      rw [hf] at h
      exact Bool.noConfusion h
    | cons r rs =>
      show (startsWithCI projPat (r :: rs) || containsProjCI rs) = true
      rw [h]
      rfl
  | cons c cs ih =>
    show (startsWithCI projPat (c :: (cs ++ rest)) || containsProjCI (cs ++ rest)) = true
    rw [ih]
    simp

theorem matchProjAt_none_of_ws_tail (s : List Char)
    (hs : startsWithCI projPat s = true)
    (hw : (s.drop 8).dropWhile jsWS = []) : matchProjAt s = none := by
  unfold matchProjAt
  simp only [hs, if_true]
  rw [hw]

theorem replaceProjAux_malformed (pid : String) (s : List Char)
    (h : projOccAllMalformed s = true) : replaceProjAux pid s = s := by
  induction s with
  | nil => rfl
  | cons c cs ih =>
    have h' : ((!(startsWithCI projPat (c :: cs))
          || (((c :: cs).drop 8).dropWhile jsWS).isEmpty)
        && projOccAllMalformed cs) = true := h
    rw [Bool.and_eq_true] at h'
    have hm : matchProjAt (c :: cs) = none := by
      by_cases hsw : startsWithCI projPat (c :: cs) = true
      · have h2 : (((c :: cs).drop 8).dropWhile jsWS).isEmpty = true := by
          have hor := h'.1
          rw [Bool.or_eq_true] at hor
          rcases hor with h1 | h2
          · rw [hsw] at h1
            simp at h1
          · exact h2
        exact matchProjAt_none_of_ws_tail _ hsw (by simpa using h2)
      · exact matchProjAt_none_of_not_starts _ (Bool.eq_false_iff.mpr hsw)
    rw [replaceProjAux_cons_nomatch pid c cs hm, ih h'.2]

theorem strMk_data (q : String) : String.mk q.data = q := rfl

/-- C4 counterexample: with enforced id `TEAM` and the free-text query
`project:` (the literal with no value), the backend receives `project:`
unchanged — it is neither the original query prefixed with a filter for
the enforced id nor a rewrite naming the enforced id (the sent query does
not mention `TEAM` at all): the `includes('project:')` test takes the
rewrite branch but the regex `/project:\s*\S+/i` finds nothing to
replace. -/
theorem query_scoping_counterexample :
    handleQueryIssues (some "TEAM") "project:"
      = (MCPResp.ok "issues listed" [("query", "project:")], [Req.queryIssues "project:"])
    ∧ strContains "project:" "TEAM" = false
    ∧ ("project:" : String) ≠ "project: TEAM project:" := by
  refine ⟨by decide, by decide, by decide⟩

/-- C4 (amended): with an enforced project id, a free-text query with no
case-insensitive occurrence of `project:` is sent prefixed with the
enforced project filter; when the query contains a well-formed project
filter clause (the literal, optional whitespace, then a value token) at
its first `project:` occurrence, that clause is rewritten to
`project: <enforced id>`; but when every `project:` occurrence is
malformed (no value follows), the query is sent unchanged. -/
theorem query_scoping_amended (pid : String) (hp : pid.isEmpty = false) (q : String) :
    (containsProjCI q.data = false →
      handleQueryIssues (some pid) q =
        (MCPResp.ok "issues listed" [("query", "project: " ++ pid ++ " " ++ q)],
         [Req.queryIssues ("project: " ++ pid ++ " " ++ q)]))
    ∧ (∀ a pr w t b : List Char,
        q.data = a ++ (pr ++ (w ++ (t ++ b))) →
        noProjOccPre a (pr ++ (w ++ (t ++ b))) = true →
        startsWithCI projPat (pr ++ (w ++ (t ++ b))) = true →
        pr.length = 8 →
        w.all jsWS = true →
        t ≠ [] →
        t.all (fun c => !(jsWS c)) = true →
        (b = [] ∨ ∃ c cs, b = c :: cs ∧ jsWS c = true) →
        handleQueryIssues (some pid) q =
          (MCPResp.ok "issues listed"
            [("query", String.mk (a ++ (("project: " ++ pid).data ++ b)))],
           [Req.queryIssues (String.mk (a ++ (("project: " ++ pid).data ++ b)))]))
    ∧ (containsProjCI q.data = true → projOccAllMalformed q.data = true →
        handleQueryIssues (some pid) q =
          (MCPResp.ok "issues listed" [("query", q)], [Req.queryIssues q])) := by
  have hres : (resolveProjectId (some pid) none false).result = Except.ok pid := by
    unfold resolveProjectId
    simp [truthy, hp]
  have hq : handleQueryIssues (some pid) q =
      (MCPResp.ok "issues listed" [("query", scopedQueryText pid q)],
       [Req.queryIssues (scopedQueryText pid q)]) := by
    unfold handleQueryIssues
    rw [hres]
  refine ⟨?_, ?_, ?_⟩
  · intro hcf
    have hsq : scopedQueryText pid q = "project: " ++ pid ++ " " ++ q := by
      unfold scopedQueryText
      rw [hcf]
      simp
    rw [hq, hsq]
  · intro a pr w t b hsplit hpre hs hlen hw ht htn hb
    have hmatch : matchProjAt (pr ++ (w ++ (t ++ b))) = some b :=
      matchProjAt_clause pr w t b hs hlen hw ht htn hb
    have hcont : containsProjCI q.data = true := by
      rw [hsplit]
      exact containsProjCI_append a _ hs
    have hsq : scopedQueryText pid q = String.mk (a ++ (("project: " ++ pid).data ++ b)) := by
      unfold scopedQueryText
      rw [hcont]
      simp only [Bool.true_eq_false, if_false]
      unfold jsReplaceProjectFirst
      rw [hsplit, replaceProjAux_pre pid a _ hpre, replaceProjAux_of_match pid _ b hmatch]
    rw [hq, hsq]
  · intro hcont hmal
    have hsq : scopedQueryText pid q = q := by
      unfold scopedQueryText
      rw [hcont]
      simp only [Bool.true_eq_false, if_false]
      unfold jsReplaceProjectFirst
      rw [replaceProjAux_malformed pid q.data hmal, strMk_data]
    rw [hq, hsq]

/-- C4 witness: the amended rewrite case instantiated on
`state: Open project: OTHER` with enforced id `TEAM`: the single
well-formed clause is rewritten to name the enforced id. -/
theorem query_scoping_amended_witness :
    handleQueryIssues (some "TEAM") "state: Open project: OTHER"
      = (MCPResp.ok "issues listed" [("query", "state: Open project: TEAM")],
         [Req.queryIssues "state: Open project: TEAM"]) := by
  have h := (query_scoping_amended "TEAM" (by decide) "state: Open project: OTHER").2.1
    "state: Open ".data "project:".data [' '] "OTHER".data []
    (by decide) (by decide) (by decide) (by decide) (by decide) (by decide) (by decide)
    (Or.inl rfl)
  rw [h]
  decide

end YoutrackMcp
